import Mathlib

/-!
Verification development for the source/version REST views of the oclapi
terminology service (files `sources/views.py` and `oclapi/mixins.py`).

The Python views are shallowly embedded as pure Lean functions:
* querysets become `List`s filtered explicitly;
* HTTP responses become records of status codes and optional headers;
* the external collaborators (object store, job queue, request parser)
  become explicit value parameters, as the spec treats them as opaque.
-/

/-- Timestamps (`created_at`, `updated_at`, `last_child_update`) are modelled
as natural numbers; only their ordering matters to the views. -/
abbrev Timestamp := Nat

/-- A `SourceVersion` row as the views read it: the fields touched by
`sources/views.py` (`mnemonic`, `created_at`, `released`, `is_active`,
`last_child_update`, the child-id sets `concepts`/`mappings`, and `id`). -/
structure SourceVersion where
  id : Nat
  mnemonic : String
  created_at : Timestamp
  released : Bool
  is_active : Bool
  last_child_update : Timestamp
  concepts : List Nat
  mappings : List Nat
deriving DecidableEq

/-- An element of a list endpoint's result set.  Every model listed through
`ListWithHeadersMixin` in this slice (Source, SourceVersion) exposes a
`mnemonic` attribute, so the `hasattr` guards in `prepend_head` are
identically true for this element type. -/
structure VersionItem where
  mnemonic : String
deriving DecidableEq

/-- `ListWithHeadersMixin.prepend_head` (oclapi/mixins.py lines 80-87):
if the list is non-empty (and its first element has a `mnemonic`, which
holds for `VersionItem`), collect the elements whose mnemonic is `"HEAD"`;
if there are any, emit them first followed by the non-HEAD elements. -/
def prepend_head (objects : List VersionItem) : List VersionItem :=
  if 0 < objects.length then
    let head_el := objects.filter (fun el => el.mnemonic = "HEAD")
    if head_el.isEmpty then
      objects
    else
      head_el ++ objects.filter (fun el => el.mnemonic ≠ "HEAD")
  else
    objects

/-- An export-artifact key as returned by `version.get_export_key()`.
Only its existence and the ability to derive a signed URL matter here. -/
structure ExportKey where
  path : String
deriving DecidableEq

/-- Modelled from the spec: the object store's signed-URL generation
(`key.generate_url(60)`), an external collaborator (§6 "object store with
`signedUrl(ttl)`").  The views only forward the returned string. -/
def ExportKey.generate_url (k : ExportKey) (expiry : Nat) : String :=
  k.path ++ "?expires=" ++ toString expiry

/-- Modelled from the spec: `last_child_update.isoformat()` — serialization
of a timestamp, treated as an opaque injective rendering. -/
def isoformat (t : Timestamp) : String := toString t

/-- The headers of an export-endpoint HTTP response that the claims are
about; `none` means the header was never set on the response. -/
structure ExportResponse where
  status : Nat
  location : Option String
  cache_control : Option String
  pragma_header : Option String
  expires_header : Option String
  lastUpdated : Option String
  lastUpdatedTimezone : Option String
deriving DecidableEq

/-- A bare `HttpResponse(status=s)` with no headers set. -/
def bareResponse (s : Nat) : ExportResponse :=
  { status := s, location := none, cache_control := none, pragma_header := none,
    expires_header := none, lastUpdated := none, lastUpdatedTimezone := none }

/-- `SourceVersionExportView.handle_export_source_version` (views.py lines
345-351): attempt `export_source.delay(version.id)`; a successful dispatch
returns HTTP status 200, while the `AlreadyQueued` signal from the
once-per-version job queue returns 204.  The Boolean of the pair records
whether a new job was actually enqueued. -/
def handle_export_source_version (already_queued : Bool) : Nat × Bool :=
  if already_queued then (204, false) else (200, true)

/-- Result of the export GET endpoint: the HTTP response plus whether the
call enqueued a new export job. -/
structure ExportGetResult where
  response : ExportResponse
  dispatched : Bool
deriving DecidableEq

/-- `SourceVersionExportView.get` (views.py lines 280-305).  Inputs beyond
the version row: `key` is `version.get_export_key()` (the object store's
answer, fetched before the HEAD guard), `already_queued` is the job queue's
state for this version, `time_zone` is `settings.TIME_ZONE`. -/
def SourceVersionExportView_get (version : SourceVersion) (key : Option ExportKey)
    (already_queued : Bool) (time_zone : String) : ExportGetResult :=
  if version.mnemonic = "HEAD" then
    { response := bareResponse 405, dispatched := false }
  else
    match key with
    | some k =>
        { response :=
            { status := 200, location := some (k.generate_url 60),
              cache_control := some "no-cache, no-store, must-revalidate",
              pragma_header := some "no-cache", expires_header := some "0",
              lastUpdated := some (isoformat version.last_child_update),
              lastUpdatedTimezone := some time_zone },
          dispatched := false }
    | none =>
        let hs := handle_export_source_version already_queued
        { response :=
            { status := hs.1, location := none,
              cache_control := some "no-cache, no-store, must-revalidate",
              pragma_header := some "no-cache", expires_header := some "0",
              lastUpdated := some (isoformat version.last_child_update),
              lastUpdatedTimezone := some time_zone },
          dispatched := hs.2 }

/-- `SourceVersionExportView.post` (views.py lines 322-334): HEAD guard,
then `status = 204`, overwritten by `handle_export_source_version` when
`version.has_export()` is false.  Returns (status, newly dispatched?). -/
def SourceVersionExportView_post (version : SourceVersion) (has_export : Bool)
    (already_queued : Bool) : Nat × Bool :=
  if version.mnemonic = "HEAD" then
    (405, false)
  else
    if has_export then (204, false)
    else handle_export_source_version already_queued

/-- Result of the export DELETE endpoint: HTTP status, whether the object
store was consulted at all (`has_export`/`get_export_key`/`key.delete`),
and whether an export key remains afterwards. -/
structure DeleteResult where
  status : Nat
  store_accessed : Bool
  key_remaining : Bool
deriving DecidableEq

/-- `SourceVersionExportView.delete` (views.py lines 336-343): non-staff
callers are rejected with 403 before any object access; otherwise the key
is deleted when present and the status is 204 either way.  There is no
check of `version.mnemonic` or `version.released` on this path. -/
def SourceVersionExportView_delete (is_staff : Bool) (version : SourceVersion)
    (has_export : Bool) : DeleteResult :=
  if !is_staff then
    { status := 403, store_accessed := false, key_remaining := has_export }
  else
    if has_export then
      { status := 204, store_accessed := true, key_remaining := false }
    else
      { status := 204, store_accessed := true, key_remaining := has_export }

/-- `SourceVersionRetrieveUpdateDestroyView.destroy` (views.py lines
251-256): a released version yields a 400 validation error and is left
untouched; otherwise the request falls through to the framework destroy,
which per spec §3 is a soft deactivation (`is_active := false`). -/
def SourceVersionRetrieveUpdateDestroyView_destroy (version : SourceVersion) :
    Nat × SourceVersion :=
  if version.released then
    (400, version)
  else
    (204, { version with is_active := false })

/-- Facet counts as exposed by a search queryset's `facets` attribute. -/
abbrev FacetData := List (String × Nat)

/-- The filtered result collection handled by `ListWithHeadersMixin.list`:
its elements plus its optional `facets` attribute (`none` models a
collection on which `hasattr(object_list, 'facets')` is false). -/
structure ObjectList where
  items : List VersionItem
  facets : Option FacetData
deriving DecidableEq

/-- The request headers `ListWithHeadersMixin.list` reads from
`request._request.META`; `none` models an absent header, `some s` the
header's string value (Python truthiness: non-empty). -/
structure ListRequest where
  includefacets_header : Option String
  compress_header : Option String
deriving DecidableEq

/-- Truthiness of `META.get('HTTP_...', False)`: false when the header is
absent, and the string's Python truthiness (non-emptiness) otherwise. -/
def header_truthy : Option String → Bool
  | none => false
  | some s => !s.isEmpty

/-- Python truthiness of the local `facets` variable in `list`: `None` and
an empty facet dictionary are both falsy. -/
def facets_truthy : Option FacetData → Bool
  | none => false
  | some d => !d.isEmpty

/-- The response body shapes produced by `ListWithHeadersMixin.list`: a bare
result array, or the facet envelope `{'results': ..., 'facets': ...}`. -/
inductive ListBody where
  | plain (results : List VersionItem)
  | with_facets (results : List VersionItem) (facets : FacetData)
deriving DecidableEq

/-- Whether a response body carries a facets object. -/
def ListBody.has_facets : ListBody → Bool
  | .plain _ => false
  | .with_facets _ _ => true

/-- The shared response construction `if facets: Response({'results':
results, 'facets': facets}) else: Response(results)` that appears verbatim
in both the paginated and the non-paginated branch of `list`. -/
def facets_response (facets : Option FacetData) (results : List VersionItem) : ListBody :=
  match facets with
  | some d => if !d.isEmpty then ListBody.with_facets results d else ListBody.plain results
  | none => ListBody.plain results

/-- `ListWithHeadersMixin.list` (oclapi/mixins.py lines 46-78).
`paginate_by` is the resolved `get_paginate_by()` page size (0 meaning "no
pagination"); `paginate_queryset` is the framework paginator collaborator,
returning `none` when no paginator is configured (the code then falls
through to the unpaginated serializer path). -/
def ListWithHeadersMixin_list (request : ListRequest) (object_list : ObjectList)
    (paginate_by : Nat)
    (paginate_queryset : List VersionItem → Option (List VersionItem)) : ListBody :=
  let include_facets := header_truthy request.includefacets_header
  let facets : Option FacetData :=
    if include_facets && object_list.facets.isSome then object_list.facets else none
  let compress := header_truthy request.compress_header
  let return_all := paginate_by = 0
  let skip_pagination := compress || return_all
  if !skip_pagination then
    match paginate_queryset (prepend_head object_list.items) with
    | some page => facets_response facets page
    | none => facets_response facets (prepend_head object_list.items)
  else
    facets_response facets (prepend_head object_list.items)

/-- The descending `created_at` ordering used by `order_by('-created_at')`. -/
def created_desc (a b : SourceVersion) : Prop :=
  b.created_at ≤ a.created_at

instance : DecidableRel created_desc :=
  fun a b => inferInstanceAs (Decidable (b.created_at ≤ a.created_at))

instance : IsTotal SourceVersion created_desc :=
  ⟨fun a b => Nat.le_total b.created_at a.created_at⟩

instance : IsTrans SourceVersion created_desc :=
  ⟨fun _ _ _ hab hbc => Nat.le_trans hbc hab⟩

/-- `queryset.order_by('-created_at')`, modelled as a stable sort by
descending `created_at` over the store's enumeration (insertion) order.
The real backing store guarantees only the descending `created_at` part;
the tie order among equal timestamps is the embedding's determinization. -/
def order_by_created_at_desc (l : List SourceVersion) : List SourceVersion :=
  List.insertionSort created_desc l

/-- `SourceVersionRetrieveUpdateView.get_object` on the `is_latest` route
(views.py lines 231-245): order the active-version queryset by
`-created_at`, filter `released=True` via `get_list_or_404`, and take
element 0.  `none` models the `Http404` raised when the filtered list is
empty. -/
def SourceVersionRetrieveUpdateView_get_object_latest
    (versions : List SourceVersion) : Option SourceVersion :=
  let queryset := order_by_created_at_desc (versions.filter (·.is_active))
  (queryset.filter (·.released)).head?

/-- A child row (ConceptVersion or Mapping) as the detail view filters it:
`id` (matched against the version's child-id set), `is_active`, `retired`
and `updated_at`. -/
structure ChildVersion where
  id : Nat
  is_active : Bool
  retired : Bool
  updated_at : Timestamp
deriving DecidableEq

/-- Characters stripped by Python's `int(str)` before parsing. -/
def is_space (c : Char) : Bool :=
  c = ' ' || c = '\t' || c = '\n' || c = '\r'

/-- Value of a digit character. -/
def digit_val (c : Char) : Nat := c.toNat - 48

/-- Python 2 `int(s)` on a string: strip surrounding whitespace, allow one
optional sign, then require at least one decimal digit and nothing else;
`none` models the `ValueError` raised otherwise. -/
def python_int_parse (s : String) : Option Int :=
  let cs := ((s.toList.dropWhile is_space).reverse.dropWhile is_space).reverse
  let signed : Bool × List Char :=
    match cs with
    | '-' :: rest => (true, rest)
    | '+' :: rest => (false, rest)
    | _ => (false, cs)
  let ds := signed.2
  if ds.isEmpty then
    none
  else if ds.all (fun c : Char => c.isDigit) then
    let n : Nat := ds.foldl (fun acc c => acc * 10 + digit_val c) 0
    some (if signed.1 then -(n : Int) else (n : Int))
  else
    none

/-- The `offset` computation of `SourceRetrieveUpdateDestroyView.retrieve`
(views.py lines 67-71): `QUERY_PARAMS.get('offset', DEFAULT_OFFSET)` then
`int(...)` with the `ValueError` recovered to `DEFAULT_OFFSET = 0`. -/
def parse_offset_param (p : Option String) : Int :=
  match p with
  | none => 0
  | some s => (python_int_parse s).getD 0

/-- The queryset window `queryset[offset:offset+limit]` for the
non-negative offsets the view produces on its success paths. -/
def queryset_slice (l : List ChildVersion) (offset : Int) (limit : Nat) : List ChildVersion :=
  (l.take (offset + (limit : Int)).toNat).drop offset.toNat

/-- Modelled from the spec: `SourceVersion.get_latest_version_of` lives in
`sources/models.py`, which is not part of this slice.  Spec §4.4: the
latest version is the most recently created version with `released ==
true`, ties on `created_at` breaking toward the highest insertion order;
`none` models the `NoReleasedVersion` error condition. -/
def SourceVersion_get_latest_version_of (versions : List SourceVersion) :
    Option SourceVersion :=
  versions.foldl
    (fun acc v =>
      if v.released then
        match acc with
        | none => some v
        | some w => if w.created_at ≤ v.created_at then some v else some w
      else acc)
    none

/-- The concept-inclusion pipeline of `retrieve` (views.py lines 85-95):
active filter, retired exclusion, `updated_at__gte`, membership in the
version's `concepts` id set, then the offset/limit window. -/
def concepts_block (source_version : SourceVersion) (store : List ChildVersion)
    (include_retired : Bool) (updated_since : Option Timestamp)
    (offset : Int) (limit : Nat) : List ChildVersion :=
  let queryset := store.filter (·.is_active)
  let queryset := if include_retired then queryset else queryset.filter (fun c => !c.retired)
  let queryset :=
    match updated_since with
    | some t => queryset.filter (fun c : ChildVersion => t ≤ c.updated_at)
    | none => queryset
  let queryset := queryset.filter (fun c => source_version.concepts.contains c.id)
  queryset_slice queryset offset limit

/-- The mapping-inclusion pipeline of `retrieve` (views.py lines 97-107):
same filters as `concepts_block`, with the id-membership filter applied
before the `updated_at__gte` filter, as in the source. -/
def mappings_block (source_version : SourceVersion) (store : List ChildVersion)
    (include_retired : Bool) (updated_since : Option Timestamp)
    (offset : Int) (limit : Nat) : List ChildVersion :=
  let queryset := store.filter (·.is_active)
  let queryset := if include_retired then queryset else queryset.filter (fun c => !c.retired)
  let queryset := queryset.filter (fun c => source_version.mappings.contains c.id)
  let queryset :=
    match updated_since with
    | some t => queryset.filter (fun c : ChildVersion => t ≤ c.updated_at)
    | none => queryset
  queryset_slice queryset offset limit

/-- The query parameters `retrieve` reads; each is the raw string value or
`none` when absent (`QUERY_PARAMS.get(..., False)` truthiness applies). -/
structure RetrieveParams where
  offset : Option String
  includeConcepts : Option String
  includeMappings : Option String
  includeRetired : Option String
deriving DecidableEq

/-- Truthiness of `QUERY_PARAMS.get(param, False)`: absent means the
`False` default; a present string is truthy when non-empty. -/
def param_truthy : Option String → Bool
  | none => false
  | some s => !s.isEmpty

/-- The two page-size settings `retrieve` consults:
`settings.REST_FRAMEWORK.get('MAX_PAGINATE_BY', self.paginate_by)`
(resolved here into `max_paginate_by`) and
`self.get_paginate_by(EmptyQuerySet())` (`paginate_by`, 0 modelling the
falsy "not configured"). -/
structure RetrieveSettings where
  max_paginate_by : Nat
  paginate_by : Nat
deriving DecidableEq

/-- The `limit` that `retrieve` ends up using when a child inclusion is
requested: the configured maximum, capped by the paginator page size when
that is truthy. -/
def resolved_limit (s : RetrieveSettings) : Nat :=
  if s.paginate_by ≠ 0 then min s.max_paginate_by s.paginate_by else s.max_paginate_by

/-- The detail response of `retrieve`: the base serialization is out of
scope; the claims concern the HTTP status and the optional `concepts` /
`mappings` keys attached to it. -/
structure RetrieveResult where
  status : Nat
  concepts : Option (List ChildVersion)
  mappings : Option (List ChildVersion)
deriving DecidableEq

/-- `SourceRetrieveUpdateDestroyView.retrieve` (views.py lines 60-109).
`updated_since_param` is the value of `parse_updated_since_param(request)`
(request-parsing collaborator, spec §4.3); `versions` is the source's
version store; `concept_store` / `mapping_store` are the child tables.
`Except.error` models the `NoReleasedVersion` fault when a child inclusion
is requested but the source has no latest version to resolve. -/
def SourceRetrieveUpdateDestroyView_retrieve (params : RetrieveParams)
    (stg : RetrieveSettings) (updated_since_param : Option Timestamp)
    (versions : List SourceVersion)
    (concept_store mapping_store : List ChildVersion) :
    Except String RetrieveResult :=
  let offset := parse_offset_param params.offset
  let include_concepts := param_truthy params.includeConcepts
  let include_mappings := param_truthy params.includeMappings
  if include_concepts || include_mappings then
    match SourceVersion_get_latest_version_of versions with
    | none => Except.error "NoReleasedVersion"
    | some source_version =>
        let limit :=
          if stg.paginate_by ≠ 0 then min stg.max_paginate_by stg.paginate_by
          else stg.max_paginate_by
        let include_retired := param_truthy params.includeRetired
        let updated_since := updated_since_param
        let concepts_data : Option (List ChildVersion) :=
          if include_concepts then
            let queryset := concept_store.filter (·.is_active)
            let queryset :=
              if include_retired then queryset else queryset.filter (fun c : ChildVersion => !c.retired)
            let queryset :=
              match updated_since with
              | some t => queryset.filter (fun c : ChildVersion => t ≤ c.updated_at)
              | none => queryset
            let queryset := queryset.filter (fun c : ChildVersion => source_version.concepts.contains c.id)
            some (queryset_slice queryset offset limit)
          else none
        let mappings_data : Option (List ChildVersion) :=
          if include_mappings then
            let queryset := mapping_store.filter (·.is_active)
            let queryset :=
              if include_retired then queryset else queryset.filter (fun c : ChildVersion => !c.retired)
            let queryset := queryset.filter (fun c : ChildVersion => source_version.mappings.contains c.id)
            let queryset :=
              match updated_since with
              | some t => queryset.filter (fun c : ChildVersion => t ≤ c.updated_at)
              | none => queryset
            some (queryset_slice queryset offset limit)
          else none
        Except.ok { status := 200, concepts := concepts_data, mappings := mappings_data }
  else
    Except.ok { status := 200, concepts := none, mappings := none }

/-- Sample: the HEAD version of a source. -/
def vHead : SourceVersion :=
  { id := 0, mnemonic := "HEAD", created_at := 50, released := false,
    is_active := true, last_child_update := 7, concepts := [], mappings := [] }

/-- Sample: a released, active, non-HEAD version. -/
def vOne : SourceVersion :=
  { id := 1, mnemonic := "v1", created_at := 10, released := true,
    is_active := true, last_child_update := 5, concepts := [1, 2], mappings := [3] }

/-- Sample: a released active version, inserted before `vTieB` and created
at the same instant. -/
def vTieA : SourceVersion :=
  { id := 2, mnemonic := "v2", created_at := 20, released := true,
    is_active := true, last_child_update := 6, concepts := [], mappings := [] }

/-- Sample: a released active version created at the same instant as
`vTieA` but inserted after it. -/
def vTieB : SourceVersion :=
  { id := 3, mnemonic := "v3", created_at := 20, released := true,
    is_active := true, last_child_update := 6, concepts := [], mappings := [] }

/-- Sample list request asking for facets and for compressed results. -/
def reqFacetsCompress : ListRequest :=
  { includefacets_header := some "true", compress_header := some "1" }

/-- Sample collection that exposes a `facets` attribute holding no data. -/
def olEmptyFacets : ObjectList :=
  { items := [{ mnemonic := "v1" }], facets := some [] }

/-- Sample detail-request parameters asking for both child inclusions with
an offset of `1`. -/
def rpBoth : RetrieveParams :=
  { offset := some "1", includeConcepts := some "true",
    includeMappings := some "yes", includeRetired := none }

/-- Sample page-size settings: configured maximum 100, paginator size 10. -/
def stgW : RetrieveSettings :=
  { max_paginate_by := 100, paginate_by := 10 }

/-- Sample concept store for the detail view. -/
def csW : List ChildVersion :=
  [{ id := 1, is_active := true, retired := false, updated_at := 4 },
   { id := 2, is_active := true, retired := true, updated_at := 9 },
   { id := 9, is_active := true, retired := false, updated_at := 9 }]

/-- Sample mapping store for the detail view. -/
def msW : List ChildVersion :=
  [{ id := 3, is_active := true, retired := false, updated_at := 8 },
   { id := 3, is_active := false, retired := false, updated_at := 8 }]

/-- C4: `prepend_head` is a stable permutation: it never drops or duplicates
an element, a list containing a HEAD element is reordered to all HEAD
elements (in order) followed by all non-HEAD elements (in order), and a list
with no HEAD element is returned unchanged. -/
theorem claim_C4_prepend_head_stable_permutation (objects : List VersionItem) :
    List.Perm (prepend_head objects) objects ∧
    prepend_head objects =
      (if objects.any (fun el => el.mnemonic = "HEAD") then
        objects.filter (fun el => el.mnemonic = "HEAD")
          ++ objects.filter (fun el => el.mnemonic ≠ "HEAD")
      else objects) := by
  have hfilter :
      (objects.filter (fun el => decide (el.mnemonic = "HEAD"))).isEmpty = true
        ↔ objects.any (fun el => decide (el.mnemonic = "HEAD")) = false := by
    simp [List.isEmpty_iff, List.filter_eq_nil_iff, List.any_eq_false]
  constructor
  · by_cases hlen : 0 < objects.length
    · by_cases hempty :
        (objects.filter (fun el => decide (el.mnemonic = "HEAD"))).isEmpty = true
      · simp [prepend_head, hlen, hempty]
      · have hperm := List.filter_append_perm
          (fun el => decide (el.mnemonic = "HEAD")) objects
        simp only [prepend_head, hlen, if_true, hempty, if_false]
        refine List.Perm.trans ?_ hperm
        apply List.Perm.append_left
        have : (fun el : VersionItem => decide ¬el.mnemonic = "HEAD")
            = (fun el : VersionItem => !decide (el.mnemonic = "HEAD")) := by
          funext el
          by_cases h : el.mnemonic = "HEAD" <;> simp [h]
        rw [this]
    · simp [prepend_head, hlen]
  · by_cases hlen : 0 < objects.length
    · by_cases hempty :
        (objects.filter (fun el => decide (el.mnemonic = "HEAD"))).isEmpty = true
      · have hany := hfilter.mp hempty
        simp [prepend_head, hlen, hempty, hany]
      · have hany : objects.any (fun el => decide (el.mnemonic = "HEAD")) = true := by
          by_contra h
          exact hempty (hfilter.mpr (by simpa using h))
        simp [prepend_head, hlen, hempty, hany]
    · have : objects = [] := by
        cases objects with
        | nil => rfl
        | cons a l => simp at hlen
      subst this
      simp [prepend_head]

/-- C1 counterexample: on a non-HEAD version with no artifact and no job in
flight, the GET handler dispatches a new export job but answers 200, not
the 204 the claim assigns to the successful-dispatch branch; and POST on a
version whose artifact already exists answers 204, not 200. -/
theorem claim_C1_counterexample :
    (SourceVersionExportView_get vOne none false "UTC").dispatched = true ∧
    (SourceVersionExportView_get vOne none false "UTC").response.status = 200 ∧
    ¬(SourceVersionExportView_get vOne none false "UTC").response.status = 204 ∧
    (SourceVersionExportView_post vOne true false).1 = 204 := by
  decide

/-- C1 amended: for export requests on a non-HEAD version with no existing
artifact, the successful-dispatch branch yields 200 (with a job actually
enqueued) and the already-queued branch yields 204 (with no new job), for
both GET and POST; POST on a version with an existing artifact yields 204
without dispatching. -/
theorem claim_C1_amended (version : SourceVersion) (aq : Bool) (tz : String)
    (h : version.mnemonic ≠ "HEAD") :
    ((SourceVersionExportView_get version none aq tz).response.status
        = if aq then 204 else 200) ∧
    ((SourceVersionExportView_get version none aq tz).dispatched = !aq) ∧
    ((SourceVersionExportView_post version false aq).1 = if aq then 204 else 200) ∧
    ((SourceVersionExportView_post version false aq).2 = !aq) ∧
    (SourceVersionExportView_post version true aq).1 = 204 ∧
    (SourceVersionExportView_post version true aq).2 = false := by
  cases aq <;>
    simp [SourceVersionExportView_get, SourceVersionExportView_post,
      handle_export_source_version, h]

/-- C1 witness: the amended claim evaluated on `vOne` with an idle queue. -/
theorem claim_C1_witness :
    ((SourceVersionExportView_get vOne none false "UTC").response.status
        = if false then 204 else 200) ∧
    ((SourceVersionExportView_get vOne none false "UTC").dispatched = !false) ∧
    ((SourceVersionExportView_post vOne false false).1 = if false then 204 else 200) ∧
    ((SourceVersionExportView_post vOne false false).2 = !false) ∧
    (SourceVersionExportView_post vOne true false).1 = 204 ∧
    (SourceVersionExportView_post vOne true false).2 = false :=
  claim_C1_amended vOne false "UTC" (by decide)

/-- C2 counterexample: the HEAD-rejection branch of the export GET handler
returns a bare 405 response carrying neither the no-cache directives nor
the `lastUpdated`/timezone pair, refuting "whatever branch is taken". -/
theorem claim_C2_counterexample :
    (SourceVersionExportView_get vHead (some { path := "exports/head" }) false
      "UTC").response.status = 405 ∧
    (SourceVersionExportView_get vHead (some { path := "exports/head" }) false
      "UTC").response.cache_control = none ∧
    (SourceVersionExportView_get vHead (some { path := "exports/head" }) false
      "UTC").response.pragma_header = none ∧
    (SourceVersionExportView_get vHead (some { path := "exports/head" }) false
      "UTC").response.expires_header = none ∧
    (SourceVersionExportView_get vHead (some { path := "exports/head" }) false
      "UTC").response.lastUpdated = none ∧
    (SourceVersionExportView_get vHead (some { path := "exports/head" }) false
      "UTC").response.lastUpdatedTimezone = none := by
  decide

/-- C2 amended: on every non-HEAD version, every branch of the export GET
handler (artifact exists, newly dispatched, already queued) carries the
no-cache directives and the `lastUpdated`/`lastUpdatedTimezone` pair
reflecting the version's `last_child_update`; only the HEAD-rejection
branch omits them. -/
theorem claim_C2_amended (version : SourceVersion) (key : Option ExportKey)
    (aq : Bool) (tz : String) (h : version.mnemonic ≠ "HEAD") :
    (SourceVersionExportView_get version key aq tz).response.cache_control
        = some "no-cache, no-store, must-revalidate" ∧
    (SourceVersionExportView_get version key aq tz).response.pragma_header
        = some "no-cache" ∧
    (SourceVersionExportView_get version key aq tz).response.expires_header
        = some "0" ∧
    (SourceVersionExportView_get version key aq tz).response.lastUpdated
        = some (isoformat version.last_child_update) ∧
    (SourceVersionExportView_get version key aq tz).response.lastUpdatedTimezone
        = some tz := by
  cases key <;> simp [SourceVersionExportView_get, handle_export_source_version, h]

/-- C2 witness: the amended claim evaluated on `vOne` with an artifact. -/
theorem claim_C2_witness :
    (SourceVersionExportView_get vOne (some { path := "exports/v1" }) false
      "UTC").response.cache_control = some "no-cache, no-store, must-revalidate" ∧
    (SourceVersionExportView_get vOne (some { path := "exports/v1" }) false
      "UTC").response.pragma_header = some "no-cache" ∧
    (SourceVersionExportView_get vOne (some { path := "exports/v1" }) false
      "UTC").response.expires_header = some "0" ∧
    (SourceVersionExportView_get vOne (some { path := "exports/v1" }) false
      "UTC").response.lastUpdated = some (isoformat vOne.last_child_update) ∧
    (SourceVersionExportView_get vOne (some { path := "exports/v1" }) false
      "UTC").response.lastUpdatedTimezone = some "UTC" :=
  claim_C2_amended vOne (some { path := "exports/v1" }) false "UTC" (by decide)

/-- C3 counterexample: `vOne` is released, yet a staff export DELETE on it
answers 204 (not a 400 validation error) and removes the artifact. -/
theorem claim_C3_counterexample :
    vOne.released = true ∧
    (SourceVersionExportView_delete true vOne true).status = 204 ∧
    ¬(SourceVersionExportView_delete true vOne true).status = 400 ∧
    (SourceVersionExportView_delete true vOne true).key_remaining = false := by
  decide

/-- C3 amended: destroying a released version always answers 400 and leaves
the version unchanged; the export DELETE, in contrast, performs no released
check: it answers 403 for non-staff callers (leaving the artifact alone)
and 204 for staff callers even on a released version. -/
theorem claim_C3_amended (version : SourceVersion) (h : version.released = true) :
    (SourceVersionRetrieveUpdateDestroyView_destroy version).1 = 400 ∧
    (SourceVersionRetrieveUpdateDestroyView_destroy version).2 = version ∧
    ∀ has_export : Bool,
      (SourceVersionExportView_delete false version has_export).status = 403 ∧
      (SourceVersionExportView_delete false version has_export).key_remaining
          = has_export ∧
      (SourceVersionExportView_delete true version has_export).status = 204 := by
  refine ⟨?_, ?_, ?_⟩
  · simp [SourceVersionRetrieveUpdateDestroyView_destroy, h]
  · simp [SourceVersionRetrieveUpdateDestroyView_destroy, h]
  · intro has_export
    cases has_export <;> simp [SourceVersionExportView_delete]

/-- C3 witness: the amended claim evaluated on the released version `vOne`. -/
theorem claim_C3_witness :
    (SourceVersionRetrieveUpdateDestroyView_destroy vOne).1 = 400 ∧
    (SourceVersionRetrieveUpdateDestroyView_destroy vOne).2 = vOne ∧
    (SourceVersionExportView_delete false vOne true).status = 403 := by
  have h := claim_C3_amended vOne (by decide)
  exact ⟨h.1, h.2.1, (h.2.2 true).1⟩

/-- C6: any export GET or POST on a version whose mnemonic is `"HEAD"`
answers 405, whatever the artifact and queue state, and enqueues nothing. -/
theorem claim_C6_head_export_rejected (version : SourceVersion)
    (key : Option ExportKey) (aq : Bool) (tz : String) (has_export : Bool)
    (h : version.mnemonic = "HEAD") :
    (SourceVersionExportView_get version key aq tz).response.status = 405 ∧
    (SourceVersionExportView_get version key aq tz).dispatched = false ∧
    (SourceVersionExportView_post version has_export aq).1 = 405 ∧
    (SourceVersionExportView_post version has_export aq).2 = false := by
  simp [SourceVersionExportView_get, SourceVersionExportView_post, h, bareResponse]

/-- C6 witness: the claim evaluated on `vHead` with an existing artifact
and a busy queue. -/
theorem claim_C6_witness :
    (SourceVersionExportView_get vHead (some { path := "k" }) true "UTC").response.status
        = 405 ∧
    (SourceVersionExportView_get vHead (some { path := "k" }) true "UTC").dispatched
        = false ∧
    (SourceVersionExportView_post vHead true true).1 = 405 ∧
    (SourceVersionExportView_post vHead true true).2 = false :=
  claim_C6_head_export_rejected vHead (some { path := "k" }) true "UTC" true (by decide)

/-- C9: the export DELETE handler has no HEAD guard — a staff caller gets
204 for every version, including one whose mnemonic is `"HEAD"` (the
universal quantifier covers it) — while a non-staff caller gets 403 with
no object-store access at all. -/
theorem claim_C9_delete_no_head_guard (version : SourceVersion) (has_export : Bool) :
    (SourceVersionExportView_delete true version has_export).status = 204 ∧
    (SourceVersionExportView_delete false version has_export).status = 403 ∧
    (SourceVersionExportView_delete false version has_export).store_accessed = false := by
  cases has_export <;> simp [SourceVersionExportView_delete]

/-- Both response-construction sites in `list` attach a facets object
exactly when the local `facets` variable is truthy. -/
theorem facets_response_has_facets (f : Option FacetData) (r : List VersionItem) :
    (facets_response f r).has_facets = facets_truthy f := by
  cases f with
  | none => rfl
  | some d =>
      by_cases hd : d.isEmpty <;>
        simp [facets_response, facets_truthy, ListBody.has_facets, hd]

/-- C5 counterexample: with the include-facets header present and a
collection that exposes a (empty) `facets` attribute, the response body is
the bare array — the facet envelope is absent, refuting the claimed
if-and-only-if. -/
theorem claim_C5_counterexample :
    header_truthy reqFacetsCompress.includefacets_header = true ∧
    olEmptyFacets.facets.isSome = true ∧
    (ListWithHeadersMixin_list reqFacetsCompress olEmptyFacets 10
      (fun _ => none)).has_facets = false := by
  refine ⟨by decide, by decide, ?_⟩
  rfl

/-- C5 amended: the response body carries a facets object iff the
include-facets header is present (truthy) AND the collection exposes a
truthy (non-empty) `facets` attribute; this is branch-independent, holding
for the paginated and non-paginated shapes alike (the statement quantifies
over the compress header, the page size and the paginator). -/
theorem claim_C5_amended (request : ListRequest) (object_list : ObjectList)
    (paginate_by : Nat) (pq : List VersionItem → Option (List VersionItem)) :
    (ListWithHeadersMixin_list request object_list paginate_by pq).has_facets =
      (header_truthy request.includefacets_header
        && facets_truthy object_list.facets) := by
  have hF : facets_truthy
      (if header_truthy request.includefacets_header && object_list.facets.isSome
        then object_list.facets else none) =
      (header_truthy request.includefacets_header
        && facets_truthy object_list.facets) := by
    cases hic : header_truthy request.includefacets_header <;>
      cases hf : object_list.facets <;>
        simp [facets_truthy]
  simp only [ListWithHeadersMixin_list]
  split
  · split <;> rw [facets_response_has_facets, hF]
  · rw [facets_response_has_facets, hF]

/-- C7 counterexample: two released active versions created at the same
instant; the view (with `order_by('-created_at')` embedded as a stable
descending sort over the store's enumeration order) returns the
first-enumerated one, `vTieA`, not the highest-insertion-order `vTieB`
the claim's tie-break rule requires. -/
theorem claim_C7_counterexample :
    SourceVersionRetrieveUpdateView_get_object_latest [vTieA, vTieB] = some vTieA ∧
    ¬vTieA = vTieB ∧
    vTieA.created_at = vTieB.created_at ∧
    vTieB.released = true ∧ vTieB.is_active = true := by
  decide

/-- C7 amended: resolving the latest version returns an active released
version whose `created_at` is maximal among the source's active released
versions (ties resolved by the backing store's enumeration order, which the
code does not constrain), and yields the 404 path — never the HEAD default
— exactly when no active released version exists. -/
theorem claim_C7_amended (versions : List SourceVersion) :
    (SourceVersionRetrieveUpdateView_get_object_latest versions = none ↔
      ∀ v ∈ versions, v.is_active = true → v.released = false) ∧
    ∀ v, SourceVersionRetrieveUpdateView_get_object_latest versions = some v →
      v ∈ versions ∧ v.is_active = true ∧ v.released = true ∧
      ∀ w ∈ versions, w.is_active = true → w.released = true →
        w.created_at ≤ v.created_at := by
  have hmemS : ∀ x : SourceVersion,
      x ∈ order_by_created_at_desc (versions.filter (·.is_active)) ↔
        x ∈ versions ∧ x.is_active = true := by
    intro x
    unfold order_by_created_at_desc
    rw [List.mem_insertionSort, List.mem_filter]
  have hmemF : ∀ x : SourceVersion,
      x ∈ (order_by_created_at_desc (versions.filter (·.is_active))).filter
          (·.released) ↔
        (x ∈ versions ∧ x.is_active = true) ∧ x.released = true := by
    intro x
    rw [List.mem_filter, hmemS]
  have hsorted :
      ((order_by_created_at_desc (versions.filter (·.is_active))).filter
        (·.released)).Sorted created_desc :=
    (List.sorted_insertionSort created_desc _).filter _
  have hview : SourceVersionRetrieveUpdateView_get_object_latest versions =
      ((order_by_created_at_desc (versions.filter (·.is_active))).filter
        (·.released)).head? := rfl
  constructor
  · rw [hview, List.head?_eq_none_iff]
    constructor
    · intro hnil v hv hact
      cases hrel : v.released with
      | false => rfl
      | true =>
          have hvF := (hmemF v).mpr ⟨⟨hv, hact⟩, hrel⟩
          rw [hnil] at hvF
          exact absurd hvF (List.not_mem_nil v)
    · intro hall
      rw [List.filter_eq_nil_iff]
      intro a haS
      have hmem := (hmemS a).mp haS
      simp [hall a hmem.1 hmem.2]
  · intro v hv
    rw [hview] at hv
    cases hFc : (order_by_created_at_desc (versions.filter (·.is_active))).filter
        (·.released) with
    | nil => rw [hFc] at hv; simp at hv
    | cons a t =>
        rw [hFc] at hv
        have hva : v = a := by
          simpa using hv.symm
        subst hva
        have hvF : v ∈ (order_by_created_at_desc
            (versions.filter (·.is_active))).filter (·.released) := by
          rw [hFc]
          exact List.mem_cons_self v t
        have hmv := (hmemF v).mp hvF
        refine ⟨hmv.1.1, hmv.1.2, hmv.2, ?_⟩
        intro w hw hwact hwrel
        have hwF := (hmemF w).mpr ⟨⟨hw, hwact⟩, hwrel⟩
        rw [hFc] at hwF
        rcases List.mem_cons.mp hwF with h | h
        · rw [h]
        · exact List.rel_of_sorted_cons (hFc ▸ hsorted) w h

/-- C7 witness: the amended claim evaluated on `[vHead, vOne]`, whose only
active released version is `vOne`. -/
theorem claim_C7_witness :
    vOne ∈ [vHead, vOne] ∧ vOne.is_active = true ∧ vOne.released = true ∧
    vOne.created_at ≤ vOne.created_at := by
  have h := (claim_C7_amended [vHead, vOne]).2 vOne (by decide)
  exact ⟨h.1, h.2.1, h.2.2.1, h.2.2.2 vOne h.1 h.2.1 h.2.2.1⟩

/-- C8: a detail request whose `offset` query parameter fails integer
parsing computes offset 0 and behaves exactly like the same request with
no `offset` parameter — the `ValueError` is swallowed, never surfaced. -/
theorem claim_C8_offset_parse_recovery (s : String)
    (h : python_int_parse s = none)
    (params : RetrieveParams) (stg : RetrieveSettings)
    (upd : Option Timestamp) (versions : List SourceVersion)
    (cs ms : List ChildVersion) :
    parse_offset_param (some s) = 0 ∧
    SourceRetrieveUpdateDestroyView_retrieve
        { params with offset := some s } stg upd versions cs ms =
      SourceRetrieveUpdateDestroyView_retrieve
        { params with offset := none } stg upd versions cs ms := by
  have h0 : parse_offset_param (some s) = 0 := by
    simp [parse_offset_param, h]
  refine ⟨h0, ?_⟩
  simp only [SourceRetrieveUpdateDestroyView_retrieve, parse_offset_param, h,
    Option.getD_none]

/-- C8 witness: the theorem evaluated on the unparseable offset `"12abc"`
with a concrete detail request. -/
theorem claim_C8_witness :
    parse_offset_param (some "12abc") = 0 ∧
    SourceRetrieveUpdateDestroyView_retrieve
        { rpBoth with offset := some "12abc" } stgW (some 2) [vHead, vOne] csW msW =
      SourceRetrieveUpdateDestroyView_retrieve
        { rpBoth with offset := none } stgW (some 2) [vHead, vOne] csW msW :=
  claim_C8_offset_parse_recovery "12abc" (by decide) rpBoth stgW (some 2)
    [vHead, vOne] csW msW

/-- C10: when a detail request asks for both child inclusions and the
latest version resolves, the response attaches the concepts and the
mappings computed from one and the same resolved version, with the same
offset, the same limit, the same includeRetired flag and the same
updatedSince filter for both. -/
theorem claim_C10_shared_child_parameters (params : RetrieveParams)
    (stg : RetrieveSettings) (upd : Option Timestamp)
    (versions : List SourceVersion) (cs ms : List ChildVersion)
    (h1 : param_truthy params.includeConcepts = true)
    (h2 : param_truthy params.includeMappings = true)
    (sv : SourceVersion)
    (hsv : SourceVersion_get_latest_version_of versions = some sv) :
    SourceRetrieveUpdateDestroyView_retrieve params stg upd versions cs ms =
      Except.ok
        { status := 200,
          concepts := some (concepts_block sv cs
            (param_truthy params.includeRetired) upd
            (parse_offset_param params.offset) (resolved_limit stg)),
          mappings := some (mappings_block sv ms
            (param_truthy params.includeRetired) upd
            (parse_offset_param params.offset) (resolved_limit stg)) } := by
  simp [SourceRetrieveUpdateDestroyView_retrieve, h1, h2, hsv,
    concepts_block, mappings_block, resolved_limit]

/-- C10 witness: the theorem evaluated on a concrete request with both
inclusions, resolving `vOne` as the latest version. -/
theorem claim_C10_witness :
    SourceRetrieveUpdateDestroyView_retrieve rpBoth stgW (some 2) [vHead, vOne]
        csW msW =
      Except.ok
        { status := 200,
          concepts := some (concepts_block vOne csW
            (param_truthy rpBoth.includeRetired) (some 2)
            (parse_offset_param rpBoth.offset) (resolved_limit stgW)),
          mappings := some (mappings_block vOne msW
            (param_truthy rpBoth.includeRetired) (some 2)
            (parse_offset_param rpBoth.offset) (resolved_limit stgW)) } :=
  claim_C10_shared_child_parameters rpBoth stgW (some 2) [vHead, vOne] csW msW
    (by decide) (by decide) vOne (by decide)
